import Mathlib

/-!
Shallow embedding of the ar-picker kinetic scroller (src/ar-picker.js).

Numbers are modelled as rationals.  JavaScript primitives that the code
uses are embedded explicitly: Math.round rounds half toward positive
infinity, the remainder operator follows the sign of the dividend,
Math.sign is three-valued, and Math.floor is the integer floor.  The
easing function pair produced by the bezier library is a parameter
(ease, easeInv), constrained only where a theorem needs the library
contract (monotone, unit range); counterexamples instantiate it with the
identity curve, which the component accepts through its bezierCurve
setter.  DOM reads (container.offsetHeight, wheel.offsetHeight) are the
parameters containerHeight and wheelHeight, read each frame.  The
requestAnimationFrame side effect is modelled by the halted/scheduled
flags, dispatchEvent by the fired flag, console.error by the logged flag,
and the setTimeout debounce timer by an optional deadline field.
-/

namespace ArPicker

/-- Fixed item height in pixels (const ITEM_HEIGHT = 36). -/
def ITEM_HEIGHT : ℚ := 36

/-- JavaScript Math.round: nearest integer, halves toward positive infinity. -/
def jround (x : ℚ) : ℤ := ⌊x + 1/2⌋

/-- Truncation toward zero, as JavaScript division-based remainder uses. -/
def jtrunc (x : ℚ) : ℤ := if 0 ≤ x then ⌊x⌋ else -⌊-x⌋

/-- JavaScript remainder operator x % y; the sign follows the dividend. -/
def jmod (x y : ℚ) : ℚ := x - y * jtrunc (x / y)

/-- JavaScript Math.sign. -/
def jsign (x : ℚ) : ℚ := if 0 < x then 1 else if x < 0 then -1 else 0

/-- One entry of a TouchEvent touch list. -/
structure Touch where
  identifier : ℤ
  screenY : ℚ
  deriving DecidableEq, Repr

/-- The mutable per-instance fields of the Picker element that the
physics engine and the input handlers read and write. -/
structure State where
  pendingScroll : ℚ
  scrollTop : ℚ
  selectedItem : Option ℤ
  lastTimestamp : Option ℚ
  animating : Bool
  externalForce : Bool
  trackedTouch : Option Touch
  debounceTimer : Option ℚ
  deriving DecidableEq, Repr

/-- JavaScript array indexing items[i]: undefined (none) outside range. -/
def itemAt (items : List ℤ) (i : ℤ) : Option ℤ :=
  if 0 ≤ i then items.get? i.toNat else none

/-- Result of checkForStability: the updated fields, the boolean return
value, and whether a select event was dispatched. -/
structure StabilityResult where
  state : State
  stable : Bool
  fired : Bool
  deriving DecidableEq, Repr

/-- Lines 190-224 of ar-picker.js.  The variable selectedIndex of line 196
is written out as jround (scrollTop / ITEM_HEIGHT). -/
def checkForStability (items : List ℤ) (s : State) : StabilityResult :=
  if jround s.pendingScroll = 0 then
    if jmod s.scrollTop ITEM_HEIGHT = 0 then
      if s.selectedItem ≠ itemAt items (jround (s.scrollTop / ITEM_HEIGHT)) then
        { state := { s with
            selectedItem := itemAt items (jround (s.scrollTop / ITEM_HEIGHT)) },
          stable := true, fired := true }
      else
        { state := s, stable := true, fired := false }
    else if s.trackedTouch.isSome || s.externalForce then
      { state := s, stable := true, fired := false }
    else if ITEM_HEIGHT / 2 < jmod s.scrollTop ITEM_HEIGHT then
      { state := { s with pendingScroll := ITEM_HEIGHT - jmod s.scrollTop ITEM_HEIGHT },
        stable := false, fired := false }
    else
      { state := { s with pendingScroll := -(jmod s.scrollTop ITEM_HEIGHT) },
        stable := false, fired := false }
  else
    { state := s, stable := false, fired := false }

/-- Lines 120-124: stopAnimation. -/
def stopAnimation (s : State) : State :=
  { s with pendingScroll := 0, lastTimestamp := none, animating := false }

/-- Lines 140-142: the sentinel condition that halts the frame before
any movement. -/
def sentinelCond (containerHeight wheelHeight : ℚ) (s : State) : Prop :=
  jround s.pendingScroll = 0
    ∨ s.scrollTop = 0 ∧ s.pendingScroll < 0
    ∨ wheelHeight ≤ s.scrollTop + containerHeight ∧ 0 < s.pendingScroll

instance (containerHeight wheelHeight : ℚ) (s : State) :
    Decidable (sentinelCond containerHeight wheelHeight s) := by
  unfold sentinelCond; infer_instance

/-- Lines 147-149: offset distance from the previous stable position. -/
def rawScrollOffset (s : State) : ℚ :=
  if 0 < s.pendingScroll then
    jmod (ITEM_HEIGHT + s.scrollTop) ITEM_HEIGHT
  else
    jmod (ITEM_HEIGHT - jmod s.scrollTop ITEM_HEIGHT) ITEM_HEIGHT

/-- Lines 151-160: the defense mechanism; second component records
whether console.error was invoked. -/
def defendOffset (raw : ℚ) : ℚ × Bool :=
  if raw < 0 then (0, true) else (raw, false)

/-- Line 163: the animation time shrunken in proportion to the force. -/
def shrunkenTime (animationDuration pending : ℚ) : ℚ :=
  min animationDuration (animationDuration * ITEM_HEIGHT / |pending|)

/-- Line 166: the elapsed-time equivalent of the current offset under the
inverse easing law. -/
def timeOf (easeInv : ℚ → ℚ) (animationDuration pending offset : ℚ) : ℚ :=
  easeInv (offset / ITEM_HEIGHT) * shrunkenTime animationDuration pending

/-- Lines 169-170: differential distance for the given delta. -/
def rawDx (ease : ℚ → ℚ) (animationDuration pending t delta : ℚ) : ℚ :=
  ease (min 1 ((t + delta) / shrunkenTime animationDuration pending)) * ITEM_HEIGHT
    - ease (min 1 (t / shrunkenTime animationDuration pending)) * ITEM_HEIGHT

/-- Lines 162-173: the displacement applied this frame, after the maximum
limit of line 173. -/
def dxFrom (ease easeInv : ℚ → ℚ) (animationDuration pending delta offset : ℚ) : ℚ :=
  jsign pending * min |pending|
    (rawDx ease animationDuration pending
      (timeOf easeInv animationDuration pending offset) delta)

/-- Result of one animatePhysics invocation: new state, whether the
animation stopped (no further frame requested), whether a select event
fired, and whether the defense mechanism logged an anomaly. -/
structure FrameResult where
  state : State
  halted : Bool
  fired : Bool
  logged : Bool
  deriving DecidableEq, Repr

/-- Lines 169-181: the state after the movement part of one frame: the
clamped write to scrollTop (line 176), the decrement of the pending
scroll (line 180) and the timestamp bookkeeping (line 181). -/
def movedState (ease easeInv : ℚ → ℚ) (animationDuration wheelHeight now delta : ℚ)
    (s : State) : State :=
  { s with
    scrollTop := max 0 (min wheelHeight (s.scrollTop
      + dxFrom ease easeInv animationDuration s.pendingScroll delta
          (defendOffset (rawScrollOffset s)).1)),
    pendingScroll := s.pendingScroll
      - dxFrom ease easeInv animationDuration s.pendingScroll delta
          (defendOffset (rawScrollOffset s)).1,
    lastTimestamp := some now }

/-- Lines 126-188: one frame of the physics stepper.  The first branch is
the priming frame (note that a stored timestamp of 0 is falsy in
JavaScript, so it primes again). -/
def animatePhysics (ease easeInv : ℚ → ℚ)
    (animationDuration containerHeight wheelHeight : ℚ)
    (items : List ℤ) (now : ℚ) (s : State) : FrameResult :=
  if s.lastTimestamp = none ∨ s.lastTimestamp = some 0 then
    { state := { s with lastTimestamp := some now, animating := true },
      halted := false, fired := false, logged := false }
  else if sentinelCond containerHeight wheelHeight s then
    { state := stopAnimation s, halted := true, fired := false, logged := false }
  else if (checkForStability items (movedState ease easeInv animationDuration
      wheelHeight now (now - s.lastTimestamp.getD 0) s)).stable then
    { state := stopAnimation (checkForStability items (movedState ease easeInv
        animationDuration wheelHeight now (now - s.lastTimestamp.getD 0) s)).state,
      halted := true,
      fired := (checkForStability items (movedState ease easeInv animationDuration
        wheelHeight now (now - s.lastTimestamp.getD 0) s)).fired,
      logged := (defendOffset (rawScrollOffset s)).2 }
  else
    { state := (checkForStability items (movedState ease easeInv animationDuration
        wheelHeight now (now - s.lastTimestamp.getD 0) s)).state,
      halted := false,
      fired := (checkForStability items (movedState ease easeInv animationDuration
        wheelHeight now (now - s.lastTimestamp.getD 0) s)).fired,
      logged := (defendOffset (rawScrollOffset s)).2 }

/-- Result of an input handler: the updated fields and whether a new
animatePhysics frame was requested. -/
structure HandlerResult where
  state : State
  scheduled : Bool
  deriving DecidableEq, Repr

/-- Lines 282-308: the wheel handler.  deltaY === Math.round(deltaY)
distinguishes mousewheel (integer) from trackpad (fractional) input; the
debounce timer is modelled by its deadline now + 500. -/
def onWheelHandler (now deltaY : ℚ) (s : State) : HandlerResult :=
  if deltaY = (jround deltaY : ℚ) then
    { state := { s with
        pendingScroll := s.pendingScroll + (⌊deltaY / ITEM_HEIGHT⌋ : ℤ) * ITEM_HEIGHT },
      scheduled := !s.animating }
  else
    { state := { s with
        externalForce := true,
        debounceTimer := some (now + 500),
        pendingScroll := s.pendingScroll + deltaY },
      scheduled := !s.animating }

/-- Lines 293-299: what the debounce timer callback does on expiry. -/
def debounceExpire (items : List ℤ) (s : State) : HandlerResult :=
  if (checkForStability items
      { s with externalForce := false, debounceTimer := none }).stable then
    { state := (checkForStability items
        { s with externalForce := false, debounceTimer := none }).state,
      scheduled := false }
  else
    { state := (checkForStability items
        { s with externalForce := false, debounceTimer := none }).state,
      scheduled := !(checkForStability items
        { s with externalForce := false, debounceTimer := none }).state.animating }

/-- Folds a sequence of wheel events (time, deltaY) through the handler. -/
def processPans : List (ℚ × ℚ) → State → State
  | [], s => s
  | (t, d) :: rest, s => processPans rest (onWheelHandler t d s).state

/-- The touch lists of a TouchEvent that the handlers read. -/
structure TouchEvent where
  targetTouches : List Touch
  changedTouches : List Touch
  deriving DecidableEq, Repr

/-- The changed touch matching the currently tracked touch, if any. -/
def matchingTouch (s : State) (touches : List Touch) : Option Touch :=
  match s.trackedTouch with
  | none => none
  | some tt => touches.find? (fun t => t.identifier == tt.identifier)

/-- Lines 257-259: touchstart tracks targetTouches[0]. -/
def onTouchStart (e : TouchEvent) (s : State) : State :=
  { s with trackedTouch := e.targetTouches.get? 0 }

/-- Lines 271-280: touchmove. -/
def onTouchMove (e : TouchEvent) (s : State) : HandlerResult :=
  match s.trackedTouch with
  | none => { state := s, scheduled := false }
  | some tt =>
    match e.changedTouches.find? (fun t => t.identifier == tt.identifier) with
    | none => { state := s, scheduled := false }
    | some currentTouch =>
      { state := { s with
          pendingScroll := s.pendingScroll + (tt.screenY - currentTouch.screenY),
          trackedTouch := some currentTouch },
        scheduled := !s.animating }

/-- Lines 261-269: touchend. -/
def onTouchEnd (items : List ℤ) (e : TouchEvent) (s : State) : HandlerResult :=
  match s.trackedTouch with
  | none => { state := s, scheduled := false }
  | some tt =>
    match e.changedTouches.find? (fun t => t.identifier == tt.identifier) with
    | none => { state := s, scheduled := false }
    | some _ =>
      if (checkForStability items { s with trackedTouch := none }).stable then
        { state := (checkForStability items { s with trackedTouch := none }).state,
          scheduled := false }
      else
        { state := (checkForStability items { s with trackedTouch := none }).state,
          scheduled :=
            !(checkForStability items { s with trackedTouch := none }).state.animating }

/-! Helper lemmas about the JavaScript arithmetic primitives. -/

theorem ITEM_HEIGHT_pos : (0 : ℚ) < ITEM_HEIGHT := by norm_num [ITEM_HEIGHT]

theorem jmod_sub_eq_fract (x y : ℚ) (hy : 0 < y) :
    x - y * ⌊x / y⌋ = y * Int.fract (x / y) := by
  rw [Int.fract, mul_sub, mul_div_cancel₀ _ hy.ne']

theorem jmod_nonneg (x y : ℚ) (hx : 0 ≤ x) (hy : 0 < y) : 0 ≤ jmod x y := by
  unfold jmod jtrunc
  rw [if_pos (div_nonneg hx hy.le), jmod_sub_eq_fract x y hy]
  exact mul_nonneg hy.le (Int.fract_nonneg _)

theorem jmod_lt (x y : ℚ) (hy : 0 < y) : jmod x y < y := by
  unfold jmod jtrunc
  by_cases hx : 0 ≤ x / y
  · rw [if_pos hx, jmod_sub_eq_fract x y hy]
    calc y * Int.fract (x / y) < y * 1 :=
          (mul_lt_mul_left hy).mpr (Int.fract_lt_one _)
      _ = y := mul_one y
  · rw [if_neg hx]
    push_neg at hx
    have h1 : (⌊-(x / y)⌋ : ℚ) ≤ -(x / y) := Int.floor_le _
    have h2 : y * (⌊-(x / y)⌋ : ℚ) ≤ -x := by
      calc y * (⌊-(x / y)⌋ : ℚ) ≤ y * (-(x / y)) := (mul_le_mul_left hy).mpr h1
        _ = -x := by rw [mul_neg, mul_div_cancel₀ _ hy.ne']
    push_cast
    linarith

theorem rawScrollOffset_lt (s : State) : rawScrollOffset s < ITEM_HEIGHT := by
  unfold rawScrollOffset
  split <;> exact jmod_lt _ _ ITEM_HEIGHT_pos

theorem defendOffset_nonneg (raw : ℚ) : 0 ≤ (defendOffset raw).1 := by
  unfold defendOffset
  split <;> simp_all

theorem defendOffset_lt (raw c : ℚ) (h : raw < c) (hc : 0 < c) :
    (defendOffset raw).1 < c := by
  unfold defendOffset
  split <;> simp_all

theorem checkForStability_preserves (items : List ℤ) (s : State) :
    (checkForStability items s).state.scrollTop = s.scrollTop
    ∧ (checkForStability items s).state.animating = s.animating
    ∧ (checkForStability items s).state.externalForce = s.externalForce
    ∧ (checkForStability items s).state.debounceTimer = s.debounceTimer
    ∧ (checkForStability items s).state.trackedTouch = s.trackedTouch
    ∧ (checkForStability items s).state.lastTimestamp = s.lastTimestamp := by
  unfold checkForStability
  split_ifs <;> exact ⟨rfl, rfl, rfl, rfl, rfl, rfl⟩

theorem stopAnimation_scrollTop (s : State) :
    (stopAnimation s).scrollTop = s.scrollTop := rfl

theorem checkForStability_scrollTop (items : List ℤ) (s : State) :
    (checkForStability items s).state.scrollTop = s.scrollTop :=
  (checkForStability_preserves items s).1

theorem movedState_scrollTop (ease easeInv : ℚ → ℚ) (aD wh now delta : ℚ)
    (s : State) :
    (movedState ease easeInv aD wh now delta s).scrollTop
      = max 0 (min wh (s.scrollTop
          + dxFrom ease easeInv aD s.pendingScroll delta
              (defendOffset (rawScrollOffset s)).1)) := rfl

theorem shrunkenTime_pos (aD p : ℚ) (hD : 0 < aD) (hp : p ≠ 0) :
    0 < shrunkenTime aD p := by
  unfold shrunkenTime
  exact lt_min hD (div_pos (mul_pos hD ITEM_HEIGHT_pos) (abs_pos.mpr hp))

theorem dxFrom_strict_consumes (ease easeInv : ℚ → ℚ)
    (hMono : ∀ u v : ℚ, 0 ≤ u → u < v → v ≤ 1 → ease u < ease v)
    (hInv : ∀ z : ℚ, 0 ≤ z → z < 1 → 0 ≤ easeInv z ∧ easeInv z < 1)
    (aD p delta offset : ℚ) (hD : 0 < aD) (hp : p ≠ 0) (hdelta : 0 < delta)
    (hoff0 : 0 ≤ offset) (hoff1 : offset < ITEM_HEIGHT) :
    |p - dxFrom ease easeInv aD p delta offset| < |p| := by
  have hT : 0 < shrunkenTime aD p := shrunkenTime_pos aD p hD hp
  have hx0 : 0 ≤ offset / ITEM_HEIGHT := div_nonneg hoff0 ITEM_HEIGHT_pos.le
  have hx1 : offset / ITEM_HEIGHT < 1 := (div_lt_one ITEM_HEIGHT_pos).mpr hoff1
  obtain ⟨hi0, hi1⟩ := hInv _ hx0 hx1
  have ht0 : 0 ≤ timeOf easeInv aD p offset :=
    mul_nonneg hi0 hT.le
  have htT : timeOf easeInv aD p offset < shrunkenTime aD p := by
    unfold timeOf
    exact mul_lt_of_lt_one_left hT hi1
  have ha0 : 0 ≤ timeOf easeInv aD p offset / shrunkenTime aD p :=
    div_nonneg ht0 hT.le
  have ha1 : timeOf easeInv aD p offset / shrunkenTime aD p < 1 :=
    (div_lt_one hT).mpr htT
  have hraw : 0 < rawDx ease aD p (timeOf easeInv aD p offset) delta := by
    unfold rawDx
    rw [min_eq_right ha1.le]
    have hab : timeOf easeInv aD p offset / shrunkenTime aD p
        < min 1 ((timeOf easeInv aD p offset + delta) / shrunkenTime aD p) := by
      apply lt_min ha1
      gcongr
      linarith
    have hE := hMono _ _ ha0 hab (min_le_left _ _)
    have := mul_lt_mul_of_pos_right hE ITEM_HEIGHT_pos
    linarith
  unfold dxFrom
  set r := rawDx ease aD p (timeOf easeInv aD p offset) delta with hr
  rcases hp.lt_or_lt with hneg | hpos
  · have hs : jsign p = -1 := by
      unfold jsign
      rw [if_neg (by linarith), if_pos hneg]
    rw [hs, abs_of_neg hneg]
    have hm0 : 0 < min (-p) r := lt_min (by linarith) hraw
    have hmle : min (-p) r ≤ -p := min_le_left _ _
    rw [show p - -1 * min (-p) r = p + min (-p) r by ring]
    rw [abs_of_nonpos (by linarith)]
    linarith
  · have hs : jsign p = 1 := by
      unfold jsign
      rw [if_pos hpos]
    rw [hs, one_mul, abs_of_pos hpos]
    have hm0 : 0 < min p r := lt_min hpos hraw
    have hmle : min p r ≤ p := min_le_left _ _
    rw [abs_of_nonneg (by linarith)]
    linarith

theorem animatePhysics_sentinel (ease easeInv : ℚ → ℚ) (aD ch wh : ℚ)
    (items : List ℤ) (now : ℚ) (s : State)
    (hts : ¬ (s.lastTimestamp = none ∨ s.lastTimestamp = some 0))
    (hsent : sentinelCond ch wh s) :
    animatePhysics ease easeInv aD ch wh items now s =
      { state := stopAnimation s, halted := true, fired := false,
        logged := false } := by
  unfold animatePhysics
  rw [if_neg hts, if_pos hsent]

theorem animatePhysics_move_fields (ease easeInv : ℚ → ℚ) (aD ch wh : ℚ)
    (items : List ℤ) (now : ℚ) (s : State) (last : ℚ)
    (hlast : s.lastTimestamp = some last) (h0 : last ≠ 0)
    (hsent : ¬ sentinelCond ch wh s) :
    (animatePhysics ease easeInv aD ch wh items now s).state.scrollTop
      = max 0 (min wh (s.scrollTop
          + dxFrom ease easeInv aD s.pendingScroll (now - last)
              (defendOffset (rawScrollOffset s)).1))
    ∧ (animatePhysics ease easeInv aD ch wh items now s).logged
        = (defendOffset (rawScrollOffset s)).2
    ∧ (animatePhysics ease easeInv aD ch wh items now s).halted
        = (checkForStability items (movedState ease easeInv aD wh now
            (now - last) s)).stable := by
  have hts : ¬ (s.lastTimestamp = none ∨ s.lastTimestamp = some 0) := by
    rw [hlast]
    rintro (h | h)
    · exact Option.noConfusion h
    · rw [Option.some.injEq] at h
      exact h0 h
  unfold animatePhysics
  rw [if_neg hts, hlast]
  simp only [Option.getD_some]
  split_ifs with hstab
  · refine ⟨?_, rfl, by simp [hstab]⟩
    show (stopAnimation (checkForStability items (movedState ease easeInv aD wh
      now (now - last) s)).state).scrollTop = _
    rw [show ∀ t : State, (stopAnimation t).scrollTop = t.scrollTop from fun _ => rfl]
    rw [(checkForStability_preserves items _).1]
    rfl
  · refine ⟨?_, rfl, by simp [hstab]⟩
    show (checkForStability items (movedState ease easeInv aD wh
      now (now - last) s)).state.scrollTop = _
    rw [(checkForStability_preserves items _).1]
    rfl

theorem animatePhysics_halted_pending (ease easeInv : ℚ → ℚ) (aD ch wh : ℚ)
    (items : List ℤ) (now : ℚ) (s : State)
    (h : (animatePhysics ease easeInv aD ch wh items now s).halted = true) :
    (animatePhysics ease easeInv aD ch wh items now s).state.pendingScroll = 0 := by
  unfold animatePhysics at h ⊢
  split_ifs at h ⊢ with h1 h2 h3 <;> simp_all [stopAnimation]

/-! Claim C1. -/

/-- State with the external-force flag set and position aligned on the
boundary of item 1, pending scroll consumed. -/
def forcedAlignedState : State :=
  { pendingScroll := 0, scrollTop := 36, selectedItem := none,
    lastTimestamp := none, animating := false, externalForce := true,
    trackedTouch := none, debounceTimer := none }

/-- C1 counterexample: at a stable aligned position reached while the
external-force flag is still set, the code dispatches the select event,
contradicting the claim that a notification fires only when the position
is not externally forced. -/
theorem select_fires_despite_external_force :
    forcedAlignedState.externalForce = true
    ∧ (checkForStability [10, 20] forcedAlignedState).fired = true := by
  refine ⟨rfl, ?_⟩
  norm_num [checkForStability, forcedAlignedState, jround, jmod, jtrunc, itemAt,
    ITEM_HEIGHT]
  simp

/-- C1 (amended): a select notification is dispatched if and only if the
pending scroll rounds to zero, the position is aligned on an item
boundary, and the item at the resolved index differs from the last
announced item — the external-force flag plays no part once the position
is aligned; and a repeated stability check on the resulting state never
fires again. -/
theorem checkForStability_fired_iff (items : List ℤ) (s : State) :
    ((checkForStability items s).fired = true ↔
      jround s.pendingScroll = 0 ∧ jmod s.scrollTop ITEM_HEIGHT = 0 ∧
        s.selectedItem ≠ itemAt items (jround (s.scrollTop / ITEM_HEIGHT)))
    ∧ ((checkForStability items s).stable = true →
      (checkForStability items (checkForStability items s).state).fired = false) := by
  constructor
  · unfold checkForStability
    split_ifs with h1 h2 h3 <;> simp_all
  · intro hstab
    by_cases h1 : jround s.pendingScroll = 0
    · by_cases h2 : jmod s.scrollTop ITEM_HEIGHT = 0
      · by_cases h3 : s.selectedItem ≠ itemAt items (jround (s.scrollTop / ITEM_HEIGHT))
        · have hstate : (checkForStability items s).state =
              { s with selectedItem := itemAt items (jround (s.scrollTop / ITEM_HEIGHT)) } := by
            unfold checkForStability
            rw [if_pos h1, if_pos h2, if_pos h3]
          rw [hstate]
          simp [checkForStability, h1, h2]
        · have hstate : (checkForStability items s).state = s := by
            unfold checkForStability
            rw [if_pos h1, if_pos h2, if_neg h3]
          rw [hstate]
          simp [checkForStability, h1, h2, h3]
      · by_cases h4 : (s.trackedTouch.isSome || s.externalForce) = true
        · have hstate : (checkForStability items s).state = s := by
            unfold checkForStability
            rw [if_pos h1, if_neg h2, if_pos h4]
          rw [hstate]
          simp [checkForStability, h1, h2, h4]
        · exfalso
          unfold checkForStability at hstab
          rw [if_pos h1, if_neg h2, if_neg h4] at hstab
          split_ifs at hstab
    · exfalso
      unfold checkForStability at hstab
      rw [if_neg h1] at hstab
      simp at hstab

/-- Fresh state aligned at index 0 with nothing announced yet. -/
def freshAlignedState : State :=
  { pendingScroll := 0, scrollTop := 0, selectedItem := none,
    lastTimestamp := none, animating := false, externalForce := false,
    trackedTouch := none, debounceTimer := none }

/-- C1 witness: after a stability check fires for item 0, an immediately
repeated check does not fire again. -/
theorem checkForStability_fired_iff_witness :
    (checkForStability [5] ((checkForStability [5] freshAlignedState).state)).fired
      = false :=
  (checkForStability_fired_iff [5] freshAlignedState).2
    (by
      norm_num [checkForStability, freshAlignedState, jround, jmod, jtrunc,
        itemAt, ITEM_HEIGHT]
      simp)

/-! Claim C2. -/

/-- Reachable state: position 72 (aligned, below maxScroll 80 for a
viewport of 100 and content of 180) with two item-heights pending. -/
def overshootState : State :=
  { pendingScroll := 72, scrollTop := 72, selectedItem := none,
    lastTimestamp := some 1, animating := true, externalForce := false,
    trackedTouch := none, debounceTimer := none }

/-- C2 counterexample: with containerHeight 100 and wheelHeight 180
(maxScroll = 80), one animating frame moves the position to 108 > 80 and
does not halt, so an overshoot past contentExtent − viewportExtent
persists across the frame boundary; the code clamps to wheelHeight, not
to wheelHeight − containerHeight. -/
theorem scrollTop_exceeds_content_minus_viewport :
    (animatePhysics (fun x => x) (fun x => x) 180 100 180 [] 91
        overshootState).state.scrollTop = 108
    ∧ (animatePhysics (fun x => x) (fun x => x) 180 100 180 [] 91
        overshootState).halted = false
    ∧ (180 : ℚ) - 100 < 108 := by
  refine ⟨?_, ?_, by norm_num⟩ <;>
    norm_num [animatePhysics, sentinelCond, movedState, dxFrom, rawDx, timeOf,
      shrunkenTime, rawScrollOffset, defendOffset, checkForStability,
      stopAnimation, jround, jmod, jtrunc, jsign, itemAt, ITEM_HEIGHT,
      overshootState] <;> simp

/-- C2 (amended): every write of the stepper clamps the position to the
interval [0, wheelHeight] (the full content extent), so no negative
position ever persists; but the upper clamp is the content extent, not
contentExtent − viewportExtent, and positions beyond the latter can
persist across a frame boundary. -/
theorem animatePhysics_scrollTop_within_content (ease easeInv : ℚ → ℚ)
    (aD ch wh : ℚ) (items : List ℤ) (now : ℚ) (s : State)
    (hwh : 0 ≤ wh) (hlo : 0 ≤ s.scrollTop) (hhi : s.scrollTop ≤ wh) :
    0 ≤ (animatePhysics ease easeInv aD ch wh items now s).state.scrollTop
    ∧ (animatePhysics ease easeInv aD ch wh items now s).state.scrollTop ≤ wh := by
  unfold animatePhysics
  split_ifs with h1 h2 h3 <;>
    simp only [stopAnimation_scrollTop, checkForStability_scrollTop,
      movedState_scrollTop]
  · exact ⟨hlo, hhi⟩
  · exact ⟨hlo, hhi⟩
  · exact ⟨le_max_left _ _, max_le hwh (min_le_left _ _)⟩
  · exact ⟨le_max_left _ _, max_le hwh (min_le_left _ _)⟩

/-- Mid-list state used to instantiate the clamping theorem. -/
def midState : State :=
  { pendingScroll := 10, scrollTop := 50, selectedItem := none,
    lastTimestamp := some 1, animating := true, externalForce := false,
    trackedTouch := none, debounceTimer := none }

/-- C2 witness: the clamping theorem applied at a concrete frame. -/
theorem animatePhysics_scrollTop_within_content_witness :
    0 ≤ (animatePhysics (fun x => x) (fun x => x) 180 100 180 [] 20
        midState).state.scrollTop
    ∧ (animatePhysics (fun x => x) (fun x => x) 180 100 180 [] 20
        midState).state.scrollTop ≤ 180 :=
  animatePhysics_scrollTop_within_content (fun x => x) (fun x => x) 180 100 180
    [] 20 midState (by norm_num) (by norm_num [midState]) (by norm_num [midState])

/-! Claim C3. -/

/-- Aligned state with one item-height pending, about to receive a small
time delta and hence a fractional displacement. -/
def fractionalDxState : State :=
  { pendingScroll := 36, scrollTop := 0, selectedItem := none,
    lastTimestamp := some 1, animating := true, externalForce := false,
    trackedTouch := none, debounceTimer := none }

/-- C3 counterexample: a frame with time delta 5/2 produces the
displacement 1/2 and applies it to the position in full — the resulting
scrollTop 1/2 is not an integer, so no rounding to an integer increment
happened and no fractional remainder was stored anywhere (the state has
no sub-pixel carry field to store it in). -/
theorem position_gets_fractional_increment :
    (animatePhysics (fun x => x) (fun x => x) 180 100 180 [] (7/2)
        fractionalDxState).state.scrollTop = 1/2
    ∧ (1:ℚ)/2 ≠ ((⌊(1:ℚ)/2⌋ : ℤ) : ℚ) := by
  constructor
  · norm_num [animatePhysics, sentinelCond, movedState, dxFrom, rawDx, timeOf,
      shrunkenTime, rawScrollOffset, defendOffset, checkForStability,
      stopAnimation, jround, jmod, jtrunc, jsign, itemAt, ITEM_HEIGHT,
      fractionalDxState]
    simp
  · norm_num

/-- C3 (amended): on every non-priming, non-sentinel frame the stepper
applies the eased displacement to the position in full, including any
fractional part, clamped only to [0, wheelHeight]; nothing is rounded to
an integer increment and the component state holds no sub-pixel carry. -/
theorem animatePhysics_applies_dx_unrounded (ease easeInv : ℚ → ℚ)
    (aD ch wh : ℚ) (items : List ℤ) (now : ℚ) (s : State) (last : ℚ)
    (hlast : s.lastTimestamp = some last) (h0 : last ≠ 0)
    (hsent : ¬ sentinelCond ch wh s) :
    (animatePhysics ease easeInv aD ch wh items now s).state.scrollTop
      = max 0 (min wh (s.scrollTop
          + dxFrom ease easeInv aD s.pendingScroll (now - last)
              (defendOffset (rawScrollOffset s)).1)) :=
  (animatePhysics_move_fields ease easeInv aD ch wh items now s last hlast h0
    hsent).1

/-- C3 witness: the unrounded-application theorem at a concrete frame. -/
theorem animatePhysics_applies_dx_unrounded_witness :
    (animatePhysics (fun x => x) (fun x => x) 180 100 180 [] (7/2)
        fractionalDxState).state.scrollTop
      = max 0 (min 180 (fractionalDxState.scrollTop
          + dxFrom (fun x => x) (fun x => x) 180 fractionalDxState.pendingScroll
              (7/2 - 1) (defendOffset (rawScrollOffset fractionalDxState)).1)) :=
  animatePhysics_applies_dx_unrounded (fun x => x) (fun x => x) 180 100 180 []
    (7/2) fractionalDxState 1 rfl (by norm_num)
    (by norm_num [sentinelCond, jround, fractionalDxState])

/-! Claim C4. -/

/-- State whose pending scroll 3/10 is nonzero but rounds to zero. -/
def nearZeroPendingState : State :=
  { pendingScroll := 3/10, scrollTop := 5, selectedItem := none,
    lastTimestamp := some 1, animating := true, externalForce := false,
    trackedTouch := none, debounceTimer := none }

/-- C4 counterexample: the stepper halts on a frame whose pending scroll
is 3/10, which is not zero — termination is decided by
round(pendingScroll) = 0, not by pendingScroll reaching exactly zero. -/
theorem halts_with_nonzero_pending :
    (animatePhysics (fun x => x) (fun x => x) 180 100 180 [] 20
        nearZeroPendingState).halted = true
    ∧ nearZeroPendingState.pendingScroll ≠ 0 := by
  constructor
  · rw [animatePhysics_sentinel (fun x => x) (fun x => x) 180 100 180 [] 20
      nearZeroPendingState (by simp [nearZeroPendingState])
      (by unfold sentinelCond nearZeroPendingState; norm_num [jround])]
  · norm_num [nearZeroPendingState]

/-- C4 (amended): on every non-sentinel animating frame driven by a
strictly monotone easing pair and a positive time delta, the movement
phase strictly shrinks |pendingScroll| (the settle check may afterwards
install a fresh corrective pending scroll, so monotonicity holds only for
the movement phase); and whenever the stepper halts, stopAnimation resets
the pending scroll to exactly zero. -/
theorem pending_consumed_and_zeroed_on_halt (ease easeInv : ℚ → ℚ)
    (hMono : ∀ u v : ℚ, 0 ≤ u → u < v → v ≤ 1 → ease u < ease v)
    (hInv : ∀ z : ℚ, 0 ≤ z → z < 1 → 0 ≤ easeInv z ∧ easeInv z < 1)
    (aD ch wh : ℚ) (items : List ℤ) (now : ℚ) (s : State) (last : ℚ)
    (hD : 0 < aD) (hlast : s.lastTimestamp = some last) (h0 : last ≠ 0)
    (hdelta : last < now) (hsent : ¬ sentinelCond ch wh s) :
    |s.pendingScroll - dxFrom ease easeInv aD s.pendingScroll (now - last)
        (defendOffset (rawScrollOffset s)).1| < |s.pendingScroll|
    ∧ ((animatePhysics ease easeInv aD ch wh items now s).halted = true →
        (animatePhysics ease easeInv aD ch wh items now s).state.pendingScroll
          = 0) := by
  constructor
  · have hp : s.pendingScroll ≠ 0 := by
      intro h
      apply hsent
      unfold sentinelCond
      refine Or.inl ?_
      rw [h]
      norm_num [jround]
    exact dxFrom_strict_consumes ease easeInv hMono hInv aD _ _ _ hD hp
      (by linarith) (defendOffset_nonneg _)
      (defendOffset_lt _ _ (rawScrollOffset_lt s) ITEM_HEIGHT_pos)
  · exact animatePhysics_halted_pending ease easeInv aD ch wh items now s

/-- C4 witness: the movement phase of a concrete frame shrinks the
pending scroll in magnitude. -/
theorem pending_consumed_and_zeroed_on_halt_witness :
    |fractionalDxState.pendingScroll
        - dxFrom (fun x => x) (fun x => x) 180 fractionalDxState.pendingScroll
            (11 - 1) (defendOffset (rawScrollOffset fractionalDxState)).1|
      < |fractionalDxState.pendingScroll| :=
  (pending_consumed_and_zeroed_on_halt (fun x => x) (fun x => x)
    (fun _ _ _ h _ => h) (fun _ hz0 hz1 => ⟨hz0, hz1⟩) 180 100 180 [] 11
    fractionalDxState 1 (by norm_num) rfl (by norm_num) (by norm_num)
    (by norm_num [sentinelCond, jround, fractionalDxState])).1

/-! Claim C5. -/

/-- Idle state used to probe the wheel handler. -/
def idleWheelState : State :=
  { pendingScroll := 100, scrollTop := 0, selectedItem := none,
    lastTimestamp := none, animating := false, externalForce := false,
    trackedTouch := none, debounceTimer := none }

/-- C5 counterexample: a wheel event with deltaY = 18 — an integer that is
not a multiple of the item height 36 — is treated as a discrete
mousewheel notch (no external-force flag, no debounce timer), and the
whole-item delta it adds, floor(18/36)·36, is zero rather than a nonzero
multiple of the item height matching the notch. -/
theorem integer_nonmultiple_delta_is_discrete_noop :
    jmod 18 ITEM_HEIGHT ≠ 0
    ∧ (onWheelHandler 7 18 idleWheelState).state.externalForce = false
    ∧ (onWheelHandler 7 18 idleWheelState).state.debounceTimer = none
    ∧ (onWheelHandler 7 18 idleWheelState).state.pendingScroll
        = idleWheelState.pendingScroll := by
  refine ⟨by norm_num [jmod, jtrunc, ITEM_HEIGHT], ?_, ?_, ?_⟩ <;>
    norm_num [onWheelHandler, idleWheelState, jround, ITEM_HEIGHT]

/-- C5 (amended): the wheel handler classifies an event as a discrete
mousewheel notch exactly when deltaY is an integer (deltaY equals its own
rounding), not when it is a multiple of the item height; a discrete notch
adds floor(deltaY/itemHeight)·itemHeight to the pending scroll — a
multiple of the item height that can be zero — and leaves the force flag
and debounce timer alone, while a fractional deltaY goes down the
continuous-panning path. -/
theorem onWheelHandler_classification (now deltaY : ℚ) (s : State) :
    (deltaY = (jround deltaY : ℚ) →
      (onWheelHandler now deltaY s).state.pendingScroll
          = s.pendingScroll + (⌊deltaY / ITEM_HEIGHT⌋ : ℤ) * ITEM_HEIGHT
      ∧ (onWheelHandler now deltaY s).state.externalForce = s.externalForce
      ∧ (onWheelHandler now deltaY s).state.debounceTimer = s.debounceTimer)
    ∧ (deltaY ≠ (jround deltaY : ℚ) →
      (onWheelHandler now deltaY s).state.pendingScroll = s.pendingScroll + deltaY
      ∧ (onWheelHandler now deltaY s).state.externalForce = true
      ∧ (onWheelHandler now deltaY s).state.debounceTimer = some (now + 500)) := by
  constructor
  · intro h
    unfold onWheelHandler
    rw [if_pos h]
    exact ⟨rfl, rfl, rfl⟩
  · intro h
    unfold onWheelHandler
    rw [if_neg h]
    exact ⟨rfl, rfl, rfl⟩

/-- C5 witness: a deltaY of exactly one item height is a discrete notch
adding exactly one item height. -/
theorem onWheelHandler_classification_witness :
    (onWheelHandler 7 36 idleWheelState).state.pendingScroll
      = idleWheelState.pendingScroll + (⌊(36:ℚ) / ITEM_HEIGHT⌋ : ℤ) * ITEM_HEIGHT :=
  ((onWheelHandler_classification 7 36 idleWheelState).1
    (by norm_num [jround])).1

/-! Claim C6. -/

/-- C6: on an animating frame (a timestamp is recorded), if the pending
scroll rounds to zero, or the position sits at the lower bound 0 with a
negative pending scroll, or at the upper bound wheelHeight −
containerHeight with a positive pending scroll, the stepper halts
immediately via stopAnimation, leaving the position untouched — in
particular a far-negative pending scroll at position 0 and its symmetric
counterpart at the upper bound never move the position. -/
theorem sentinel_halts_without_moving (ease easeInv : ℚ → ℚ)
    (aD ch wh : ℚ) (items : List ℤ) (now : ℚ) (s : State) (last : ℚ)
    (hlast : s.lastTimestamp = some last) (h0 : last ≠ 0)
    (hcond : jround s.pendingScroll = 0
      ∨ s.scrollTop = 0 ∧ s.pendingScroll < 0
      ∨ s.scrollTop = wh - ch ∧ 0 < s.pendingScroll) :
    (animatePhysics ease easeInv aD ch wh items now s).halted = true
    ∧ (animatePhysics ease easeInv aD ch wh items now s).state.scrollTop
        = s.scrollTop
    ∧ (animatePhysics ease easeInv aD ch wh items now s).state
        = stopAnimation s := by
  have hts : ¬ (s.lastTimestamp = none ∨ s.lastTimestamp = some 0) := by
    rw [hlast]
    rintro (h | h)
    · exact Option.noConfusion h
    · rw [Option.some.injEq] at h
      exact h0 h
  have hsent : sentinelCond ch wh s := by
    unfold sentinelCond
    rcases hcond with h | h | h
    · exact Or.inl h
    · exact Or.inr (Or.inl h)
    · refine Or.inr (Or.inr ⟨?_, h.2⟩)
      rw [h.1]
      linarith
  rw [animatePhysics_sentinel ease easeInv aD ch wh items now s hts hsent]
  exact ⟨rfl, rfl, rfl⟩

/-- State at the lower bound with a large negative pending scroll. -/
def lowerBoundState : State :=
  { pendingScroll := -500, scrollTop := 0, selectedItem := none,
    lastTimestamp := some 1, animating := true, externalForce := false,
    trackedTouch := none, debounceTimer := none }

/-- C6 witness: driving the pending scroll far negative from position 0
halts at once without moving the position. -/
theorem sentinel_halts_without_moving_witness :
    (animatePhysics (fun x => x) (fun x => x) 180 100 180 [] 20
        lowerBoundState).halted = true
    ∧ (animatePhysics (fun x => x) (fun x => x) 180 100 180 [] 20
        lowerBoundState).state.scrollTop = lowerBoundState.scrollTop :=
  ⟨(sentinel_halts_without_moving (fun x => x) (fun x => x) 180 100 180 [] 20
      lowerBoundState 1 rfl (by norm_num)
      (Or.inr (Or.inl ⟨rfl, by norm_num [lowerBoundState]⟩))).1,
   (sentinel_halts_without_moving (fun x => x) (fun x => x) 180 100 180 [] 20
      lowerBoundState 1 rfl (by norm_num)
      (Or.inr (Or.inl ⟨rfl, by norm_num [lowerBoundState]⟩))).2.1⟩

/-! Claim C7. -/

/-- C7: in a stability check with the pending scroll rounding to zero and
the position off the item boundary: while a tracked touch or the
external-force flag holds the position, the check reports stable as-is
and computes no corrective delta; otherwise it installs the corrective
pending scroll — itemHeight − offset past the midpoint, −offset at or
below it — and reports not yet stable, firing no notification. -/
theorem stability_force_and_corrective (items : List ℤ) (s : State)
    (h1 : jround s.pendingScroll = 0) (h2 : jmod s.scrollTop ITEM_HEIGHT ≠ 0) :
    ((s.trackedTouch.isSome || s.externalForce) = true →
      checkForStability items s = { state := s, stable := true, fired := false })
    ∧ ((s.trackedTouch.isSome || s.externalForce) = false →
      (checkForStability items s).stable = false
      ∧ (checkForStability items s).fired = false
      ∧ (checkForStability items s).state
          = { s with
              pendingScroll :=
                if ITEM_HEIGHT / 2 < jmod s.scrollTop ITEM_HEIGHT then
                  ITEM_HEIGHT - jmod s.scrollTop ITEM_HEIGHT
                else -(jmod s.scrollTop ITEM_HEIGHT) }) := by
  constructor
  · intro h4
    unfold checkForStability
    rw [if_pos h1, if_neg h2, if_pos h4]
  · intro h4
    unfold checkForStability
    rw [if_pos h1, if_neg h2, if_neg (by simp [h4])]
    by_cases h5 : ITEM_HEIGHT / 2 < jmod s.scrollTop ITEM_HEIGHT
    · simp [if_pos h5]
    · simp [if_neg h5]

/-- Unaligned position held by the external-force flag. -/
def unalignedForcedState : State :=
  { pendingScroll := 0, scrollTop := 20, selectedItem := none,
    lastTimestamp := none, animating := false, externalForce := true,
    trackedTouch := none, debounceTimer := none }

/-- C7 witness: with the force flag set at unaligned position 20, the
check reports stable without touching the state. -/
theorem stability_force_and_corrective_witness :
    checkForStability [] unalignedForcedState =
      { state := unalignedForcedState, stable := true, fired := false } :=
  (stability_force_and_corrective [] unalignedForcedState
    (by norm_num [jround, unalignedForcedState])
    (by norm_num [jmod, jtrunc, ITEM_HEIGHT, unalignedForcedState])).1 rfl

/-! Claim C8. -/

/-- C8: every fractional (trackpad) wheel event sets the external-force
flag, adds its raw delta to the pending scroll, and replaces whatever
debounce deadline was pending with the fixed deadline now + 500 — the
deadline field holds at most one timer, so after any burst of panning
events ending in one at time t the single pending deadline is t + 500;
on expiry the callback clears the force flag, clears the timer (so it
cannot fire again), and runs a stability check without touching the
position. -/
theorem wheel_pan_debounce (items : List ℤ) :
    (∀ (now deltaY : ℚ) (s : State), deltaY ≠ (jround deltaY : ℚ) →
      (onWheelHandler now deltaY s).state.externalForce = true
      ∧ (onWheelHandler now deltaY s).state.pendingScroll
          = s.pendingScroll + deltaY
      ∧ (onWheelHandler now deltaY s).state.debounceTimer = some (now + 500))
    ∧ (∀ (pans : List (ℚ × ℚ)) (t d : ℚ) (s : State), d ≠ (jround d : ℚ) →
      (processPans (pans ++ [(t, d)]) s).debounceTimer = some (t + 500)
      ∧ (processPans (pans ++ [(t, d)]) s).externalForce = true)
    ∧ (∀ s : State,
      (debounceExpire items s).state.externalForce = false
      ∧ (debounceExpire items s).state.debounceTimer = none
      ∧ (debounceExpire items s).state.scrollTop = s.scrollTop) := by
  have hone : ∀ (now deltaY : ℚ) (s : State), deltaY ≠ (jround deltaY : ℚ) →
      (onWheelHandler now deltaY s).state.externalForce = true
      ∧ (onWheelHandler now deltaY s).state.pendingScroll
          = s.pendingScroll + deltaY
      ∧ (onWheelHandler now deltaY s).state.debounceTimer = some (now + 500) := by
    intro now deltaY s h
    unfold onWheelHandler
    rw [if_neg h]
    exact ⟨rfl, rfl, rfl⟩
  refine ⟨hone, ?_, ?_⟩
  · intro pans
    induction pans with
    | nil =>
      intro t d s h
      have hrw : processPans ([] ++ [(t, d)]) s = (onWheelHandler t d s).state := rfl
      rw [hrw]
      exact ⟨(hone t d s h).2.2, (hone t d s h).1⟩
    | cons p rest ih =>
      intro t d s h
      obtain ⟨pt, pd⟩ := p
      have hrw : processPans ((pt, pd) :: rest ++ [(t, d)]) s
          = processPans (rest ++ [(t, d)]) (onWheelHandler pt pd s).state := rfl
      rw [hrw]
      exact ih t d _ h
  · intro s
    unfold debounceExpire
    split_ifs
    · exact ⟨(checkForStability_preserves items _).2.2.1.trans rfl,
        (checkForStability_preserves items _).2.2.2.1.trans rfl,
        (checkForStability_preserves items _).1.trans rfl⟩
    · exact ⟨(checkForStability_preserves items _).2.2.1.trans rfl,
        (checkForStability_preserves items _).2.2.2.1.trans rfl,
        (checkForStability_preserves items _).1.trans rfl⟩

/-- Idle state used to drive the panning trace. -/
def idlePanState : State :=
  { pendingScroll := 0, scrollTop := 0, selectedItem := none,
    lastTimestamp := none, animating := false, externalForce := false,
    trackedTouch := none, debounceTimer := none }

/-- C8 witness: two panning deltas inside the debounce window leave one
single deadline, 500 after the second event. -/
theorem wheel_pan_debounce_witness :
    (processPans ([(0, 1/2)] ++ [(100, 3/2)]) idlePanState).debounceTimer
      = some (100 + 500) :=
  ((wheel_pan_debounce []).2.1 [(0, 1/2)] 100 (3/2) idlePanState
    (by norm_num [jround])).1

/-! Claim C9. -/

/-- C9: whenever the per-frame offset-from-boundary computation comes out
negative on a non-priming, non-sentinel frame, the defense mechanism
clamps the value to zero and records the anomaly through console.error
(the logged flag), and the frame goes on to apply its movement computed
with the clamped offset instead of halting; the frame result carries no
error channel at all, so nothing is surfaced to the user. -/
theorem negative_offset_defense (ease easeInv : ℚ → ℚ) (aD ch wh : ℚ)
    (items : List ℤ) (now : ℚ) (s : State) (last : ℚ)
    (hlast : s.lastTimestamp = some last) (h0 : last ≠ 0)
    (hsent : ¬ sentinelCond ch wh s)
    (hneg : rawScrollOffset s < 0) :
    defendOffset (rawScrollOffset s) = (0, true)
    ∧ (animatePhysics ease easeInv aD ch wh items now s).logged = true
    ∧ (animatePhysics ease easeInv aD ch wh items now s).state.scrollTop
        = max 0 (min wh (s.scrollTop
            + dxFrom ease easeInv aD s.pendingScroll (now - last) 0)) := by
  have hdef : defendOffset (rawScrollOffset s) = (0, true) := by
    unfold defendOffset
    rw [if_pos hneg]
  obtain ⟨hst, hlog, _⟩ := animatePhysics_move_fields ease easeInv aD ch wh
    items now s last hlast h0 hsent
  refine ⟨hdef, ?_, ?_⟩
  · rw [hlog, hdef]
  · rw [hst, hdef]

/-- State with a corrupted negative position, the only way the offset
computation can come out negative. -/
def corruptedState : State :=
  { pendingScroll := 5, scrollTop := -50, selectedItem := none,
    lastTimestamp := some 1, animating := true, externalForce := false,
    trackedTouch := none, debounceTimer := none }

/-- C9 witness: at position −50 with pending scroll 5 the raw offset is
−14; the defense clamps it to zero and logs, and the frame continues. -/
theorem negative_offset_defense_witness :
    defendOffset (rawScrollOffset corruptedState) = (0, true)
    ∧ (animatePhysics (fun x => x) (fun x => x) 180 100 180 [] 20
        corruptedState).logged = true :=
  ⟨(negative_offset_defense (fun x => x) (fun x => x) 180 100 180 [] 20
      corruptedState 1 rfl (by norm_num)
      (by unfold sentinelCond corruptedState; norm_num [jround])
      (by norm_num [rawScrollOffset, corruptedState, jmod, jtrunc,
        ITEM_HEIGHT])).1,
   (negative_offset_defense (fun x => x) (fun x => x) 180 100 180 [] 20
      corruptedState 1 rfl (by norm_num)
      (by unfold sentinelCond corruptedState; norm_num [jround])
      (by norm_num [rawScrollOffset, corruptedState, jmod, jtrunc,
        ITEM_HEIGHT])).2.1⟩

/-! Claim C10. -/

/-- C10: a touchmove or touchend whose changed touches hold no touch with
the tracked identifier — in particular when no touch is tracked at all —
leaves the whole state unchanged and schedules nothing; touchstart makes
the first target touch (and only it) the tracked touch while leaving the
pending scroll and the position alone. -/
theorem touch_handlers_ignore_untracked (items : List ℤ) (e : TouchEvent)
    (s : State) (h : matchingTouch s e.changedTouches = none) :
    onTouchMove e s = { state := s, scheduled := false }
    ∧ onTouchEnd items e s = { state := s, scheduled := false }
    ∧ (onTouchStart e s).trackedTouch = e.targetTouches.head?
    ∧ (onTouchStart e s).pendingScroll = s.pendingScroll
    ∧ (onTouchStart e s).scrollTop = s.scrollTop := by
  have hstart : (onTouchStart e s).trackedTouch = e.targetTouches.head? := by
    unfold onTouchStart
    cases e.targetTouches <;> rfl
  cases htt : s.trackedTouch with
  | none =>
    refine ⟨?_, ?_, hstart, rfl, rfl⟩ <;> simp [onTouchMove, onTouchEnd, htt]
  | some tt =>
    have hfind : e.changedTouches.find?
        (fun t => t.identifier == tt.identifier) = none := by
      unfold matchingTouch at h
      rw [htt] at h
      exact h
    refine ⟨?_, ?_, hstart, rfl, rfl⟩ <;>
      simp [onTouchMove, onTouchEnd, htt, hfind]

/-- State tracking touch 3 while the event reports only touch 4. -/
def trackedTouchState : State :=
  { pendingScroll := 7, scrollTop := 36, selectedItem := none,
    lastTimestamp := none, animating := false, externalForce := false,
    trackedTouch := some { identifier := 3, screenY := 10 },
    debounceTimer := none }

/-- Touch event whose changed touches do not include the tracked touch. -/
def strayTouchEvent : TouchEvent :=
  { targetTouches := [],
    changedTouches := [{ identifier := 4, screenY := 50 }] }

/-- C10 witness: a touchmove for an untracked identifier is a no-op. -/
theorem touch_handlers_ignore_untracked_witness :
    onTouchMove strayTouchEvent trackedTouchState
      = { state := trackedTouchState, scheduled := false } :=
  (touch_handlers_ignore_untracked [] strayTouchEvent trackedTouchState
    (by simp [matchingTouch, trackedTouchState, strayTouchEvent])).1

end ArPicker
